import Mathlib

/-!
Shallow embedding of `src/pagination/pagination.ts` (`NgbPagination`): the
page-window computation engine of the pagination component.  Pure integer
arithmetic of the source is modelled on `Int`; the IEEE-754 special values
(`NaN`, `Infinity`) that the source's `Math.ceil(collectionSize / pageSize)`
can produce when `pageSize = 0` are modelled separately by `JSNum`.
-/

namespace NgbPagination

/-- Ceiling division: for integers `a`, `b` with `b ≠ 0`, the value of
JavaScript `Math.ceil(a / b)`, i.e. the ceiling `-⌊-a/b⌋` of the exact
rational quotient, computed with floor division `Int.fdiv`.
(`jsCeilDiv_eq_ceil` below anchors this to the rational ceiling.) -/
def jsCeilDiv (a b : Int) : Int := -(Int.fdiv (-a) b)

/-- Semantics of JavaScript `Array.prototype.slice(s, e)` on a list:
a negative index counts from the end, and both indices are clamped into
`[0, length]`; the result is the elements with indices in `[s', e')`. -/
def jsSlice (l : List Int) (s e : Int) : List Int :=
  let len : Int := l.length
  let s' : Int := if s < 0 then max (len + s) 0 else min s len
  let e' : Int := if e < 0 then max (len + e) 0 else min e len
  (l.drop s'.toNat).take (e' - s').toNat

/-- The loop `for (let i = 1; i <= pageCount; i++) { this.pages.push(i); }`
of `ngOnChanges`: the list `[1, …, pageCount]`, empty when `pageCount ≤ 0`. -/
def fillPages (pageCount : Int) : List Int :=
  (List.range pageCount.toNat).map (fun (i : Nat) => (i : Int) + 1)

/-- The state of one `NgbPagination` component: the bound inputs
(`collectionSize`, `pageSize`, `page`, `maxSize`, `rotate`, `ellipses`) and
the derived fields (`_pageCount` — written `pageCount` here — and `pages`,
the published Display Sequence). -/
structure State where
  collectionSize : Int
  pageSize : Int
  page : Int
  maxSize : Int
  rotate : Bool
  ellipses : Bool
  pageCount : Int
  pages : List Int
deriving DecidableEq

/-- Modelled from the spec: `getValueInRange` is imported from `util/util`,
which is not among the sources.  Spec §4.1 (Range Clamp): "Returns `minPage`
if `pageCount <= 0` or `requested < minPage`; returns `pageCount` if
`requested > pageCount`; otherwise returns `requested` unchanged." -/
def getValueInRange (requested pageCount minPage : Int) : Int :=
  if pageCount ≤ 0 ∨ requested < minPage then minPage
  else if requested > pageCount then pageCount
  else requested

/-- Source `_getPageNoInRange(newPageNo)`: `getValueInRange(newPageNo, this._pageCount, 1)`. -/
def _getPageNoInRange (st : State) (newPageNo : Int) : Int :=
  getValueInRange newPageNo st.pageCount 1

/-- Source `_isEllipsis(pageNumber)`: `pageNumber === -1`. -/
def _isEllipsis (pageNumber : Int) : Bool := pageNumber == -1

/-- Source `_applyRotation()`: window bounds for the rotation strategy.
`Math.floor(maxSize / 2)` is `Int.fdiv maxSize 2`; the JavaScript remainder
`maxSize % 2` is the truncated remainder `Int.tmod maxSize 2`. -/
def _applyRotation (st : State) : Int × Int :=
  let leftOffset := Int.fdiv st.maxSize 2
  let rightOffset := if Int.tmod st.maxSize 2 = 0 then leftOffset - 1 else leftOffset
  if st.page ≤ leftOffset then
    (0, st.maxSize)
  else if st.pageCount - st.page < leftOffset then
    (st.pageCount - st.maxSize, st.pageCount)
  else
    (st.page - leftOffset - 1, st.page + rightOffset)

/-- Source `_applyPagination()`: window bounds for the pagination-blocks strategy,
`page = Math.ceil(this.page / this.maxSize) - 1`, `start = page * maxSize`,
`end = start + maxSize`. -/
def _applyPagination (st : State) : Int × Int :=
  let page := jsCeilDiv st.page st.maxSize - 1
  (page * st.maxSize, page * st.maxSize + st.maxSize)

/-- Source `_applyEllipses(start, end)`: when `this.ellipses` is set, prepend
`1, -1` (two `unshift` calls) if `start > 0` and append `-1, pageCount`
(two `push` calls) if `end < pageCount`. -/
def _applyEllipses (st : State) (start stop : Int) : State :=
  if st.ellipses then
    let pages := if start > 0 then 1 :: -1 :: st.pages else st.pages
    let pages := if stop < st.pageCount then pages ++ [-1, st.pageCount] else pages
    { st with pages := pages }
  else st

/-- Source `ngOnChanges()`: derive `_pageCount = Math.ceil(collectionSize / pageSize)`,
rebuild `pages = [1..pageCount]`, clamp `page`, and when
`maxSize > 0 && pageCount > maxSize` slice the window chosen by
`_applyRotation` or `_applyPagination` and run `_applyEllipses`.
Integer model: exact for integer inputs with `pageSize ≠ 0`; the JS-number
behaviour at `pageSize = 0` is modelled by `jsCeilDivNum`/`jsPageFill`. -/
def ngOnChanges (st : State) : State :=
  let pageCount := jsCeilDiv st.collectionSize st.pageSize
  let st := { st with pageCount := pageCount, pages := fillPages pageCount }
  let st := { st with page := _getPageNoInRange st st.page }
  if st.maxSize > 0 ∧ st.pageCount > st.maxSize then
    let se := if st.rotate then _applyRotation st else _applyPagination st
    let st := { st with pages := jsSlice st.pages se.1 se.2 }
    _applyEllipses st se.1 se.2
  else st

/-- Source `selectPage(pageNumber)`: clamp the target with the current `_pageCount`,
emit `pageChange` with the new page exactly when it differs from the previous
page, then run `ngOnChanges`.  The second component is the emitted payload
(`none` when no event was fired). -/
def selectPage (st : State) (pageNumber : Int) : State × Option Int :=
  let prevPageNo := st.page
  let newPage := _getPageNoInRange st pageNumber
  let st := { st with page := newPage }
  let emitted := if newPage ≠ prevPageNo then some newPage else none
  (ngOnChanges st, emitted)

/-- Source `hasPrevious()`: `this.page > 1`. -/
def hasPrevious (st : State) : Bool := st.page > 1

/-- Source `hasNext()`: `this.page < this._pageCount`. -/
def hasNext (st : State) : Bool := st.page < st.pageCount

/-- A fresh component state with the given bound inputs and the derived
fields still at their initial values (`_pageCount = 0`, `pages = []`). -/
def mkState (collectionSize pageSize page maxSize : Int) (rotate ellipses : Bool) : State :=
  { collectionSize := collectionSize, pageSize := pageSize, page := page,
    maxSize := maxSize, rotate := rotate, ellipses := ellipses,
    pageCount := 0, pages := [] }

/-- A recomputed state with 20 pages (`collectionSize = 20`, `pageSize = 1`),
`maxSize = 5`, rotation and ellipses on, at the given current page. -/
def rotState (page : Int) : State :=
  { mkState 20 1 page 5 true true with pageCount := 20, pages := fillPages 20 }

/-- A recomputed state with 10 pages, `maxSize = 3`, pagination-blocks
strategy (`rotate = false`), at current page 4. -/
def pagState : State :=
  { mkState 10 1 4 3 false true with pageCount := 10, pages := fillPages 10 }

/-- The initial state of a freshly constructed component with
`collectionSize = 0` bound: all other inputs at their declared defaults
(`pageSize = 10`, `page = 0`, `maxSize = 0`, `rotate = false`,
`ellipses = true`) and the derived fields at their initialisers
(`_pageCount = 0`, `pages = []`). -/
def initialState : State := mkState 0 10 0 0 false true

/-! ### JS-number model of the degenerate `pageSize = 0` configuration -/

/-- The JavaScript number values reachable in `_pageCount` and `page`:
`NaN`, `±Infinity`, or an integer. -/
inductive JSNum where
  | nan : JSNum
  | posInf : JSNum
  | negInf : JSNum
  | int : Int → JSNum
deriving DecidableEq

/-- Value of `Math.ceil(a / b)` over JavaScript numbers for integer operands:
division by `0` produces `NaN` (for `0 / 0`) or `±Infinity`, which
`Math.ceil` maps to themselves; otherwise the exact integer ceiling. -/
def jsCeilDivNum (a b : Int) : JSNum :=
  if b = 0 then
    if a = 0 then JSNum.nan
    else if a > 0 then JSNum.posInf
    else JSNum.negInf
  else JSNum.int (jsCeilDiv a b)

/-- The page-fill loop `for (let i = 1; i <= pageCount; i++) pages.push(i)`
with a JS-number bound.  With `pageCount = +Infinity` the condition
`i <= pageCount` never fails, so the loop does not terminate: `none`.
`1 <= NaN` and `1 <= -Infinity` are false, so those bounds give `[]`. -/
def jsPageFill : JSNum → Option (List Int)
  | JSNum.nan => some []
  | JSNum.negInf => some []
  | JSNum.posInf => none
  | JSNum.int n => some (fillPages n)

/-- The first two steps of `ngOnChanges` (page-count derivation and the
page-fill loop) over JS numbers; `none` marks divergence of the loop. -/
def jsRecomputeHead (collectionSize pageSize : Int) : Option (JSNum × List Int) :=
  let pageCount := jsCeilDivNum collectionSize pageSize
  (jsPageFill pageCount).map (fun pages => (pageCount, pages))

/-! ### Sanity checks of the embedding on concrete inputs -/

example : jsCeilDiv 101 10 = 11 := by decide

example : jsCeilDiv 100 10 = 10 := by decide

example : jsCeilDiv 0 10 = 0 := by decide

example : jsSlice (fillPages 10) 3 6 = [4, 5, 6] := by decide

example : jsSlice (fillPages 10) 9 12 = [10] := by decide

example :
    (ngOnChanges (mkState 20 1 10 5 true true)).pages =
      [1, -1, 8, 9, 10, 11, 12, -1, 20] := by decide

example :
    (ngOnChanges (mkState 20 1 1 5 true true)).pages = [1, 2, 3, 4, 5, -1, 20] := by decide

example :
    (ngOnChanges (mkState 20 1 20 5 true true)).pages = [1, -1, 16, 17, 18, 19, 20] := by decide

example :
    (ngOnChanges (mkState 10 1 4 3 false true)).pages = [1, -1, 4, 5, 6, -1, 10] := by decide

example : jsRecomputeHead 10 0 = none := by decide

example : jsRecomputeHead 0 0 = some (JSNum.nan, []) := by decide

/-! ### Arithmetic anchoring lemmas -/

/-- Floor division `Int.fdiv` by a positive divisor is the floor of the
exact rational quotient. -/
theorem fdiv_eq_floor (n d : Int) (hd : 0 < d) :
    Int.fdiv n d = ⌊(n : ℚ) / (d : ℚ)⌋ := by
  have hq : (0 : ℚ) < (d : ℚ) := by exact_mod_cast hd
  have h1 := Int.fdiv_add_fmod n d
  have h2 : 0 ≤ Int.fmod n d := Int.fmod_nonneg' n hd
  have h3 : Int.fmod n d < d := Int.fmod_lt_of_pos n hd
  symm
  rw [Int.floor_eq_iff]
  constructor
  · rw [le_div_iff₀ hq]
    have h4 : Int.fdiv n d * d ≤ n := by nlinarith
    exact_mod_cast h4
  · rw [div_lt_iff₀ hq]
    have h4 : n < (Int.fdiv n d + 1) * d := by nlinarith
    have h5 : (n : ℚ) < ((Int.fdiv n d + 1 : Int) : ℚ) * (d : ℚ) := by exact_mod_cast h4
    push_cast at h5 ⊢
    linarith

/-- Dividing with `jsCeilDiv` by a positive divisor is the ceiling of the exact rational
quotient — the value of `Math.ceil(a / b)`. -/
theorem jsCeilDiv_eq_ceil (a b : Int) (hb : 0 < b) :
    jsCeilDiv a b = ⌈(a : ℚ) / (b : ℚ)⌉ := by
  unfold jsCeilDiv
  rw [fdiv_eq_floor (-a) b hb]
  have h : ((-a : Int) : ℚ) / (b : ℚ) = -((a : ℚ) / (b : ℚ)) := by push_cast; ring
  rw [h, Int.floor_neg, neg_neg]

/-- The JavaScript test `maxSize % 2 === 0` (truncated remainder) detects
evenness. -/
theorem tmod_two_eq_zero_iff_even (m : Int) : Int.tmod m 2 = 0 ↔ Even m := by
  constructor
  · intro h
    rcases Int.dvd_of_tmod_eq_zero h with ⟨k, hk⟩
    exact ⟨k, by omega⟩
  · rintro ⟨k, hk⟩
    exact Int.tmod_eq_zero_of_dvd ⟨k, by omega⟩

/-- The clamp is a projection: clamping twice equals clamping once. -/
theorem getValueInRange_idem (x pageCount : Int) :
    getValueInRange (getValueInRange x pageCount 1) pageCount 1 =
      getValueInRange x pageCount 1 := by
  unfold getValueInRange
  split_ifs <;> omega

/-- Recompute `ngOnChanges` leaves the bound inputs untouched, stores the derived page
count in `_pageCount`, and stores the clamped page in `page`. -/
theorem ngOnChanges_fields (st : State) :
    (ngOnChanges st).collectionSize = st.collectionSize ∧
    (ngOnChanges st).pageSize = st.pageSize ∧
    (ngOnChanges st).maxSize = st.maxSize ∧
    (ngOnChanges st).rotate = st.rotate ∧
    (ngOnChanges st).ellipses = st.ellipses ∧
    (ngOnChanges st).pageCount = jsCeilDiv st.collectionSize st.pageSize ∧
    (ngOnChanges st).page =
      getValueInRange st.page (jsCeilDiv st.collectionSize st.pageSize) 1 := by
  unfold ngOnChanges _applyEllipses _getPageNoInRange
  dsimp only
  split_ifs <;> simp

/-! ### Claim theorems -/

/-- C1: the claim asserts that `pageSize = 0` yields the safe degenerate
state (page count 0, empty Display Sequence) without divergence or `NaN`.
The code violates this: `Math.ceil(collectionSize / 0)` is `+Infinity` for
`collectionSize = 10`, so the page-fill loop of `ngOnChanges` never
terminates (`jsRecomputeHead 10 0 = none`), and for `collectionSize = 0` the
derived `_pageCount` is `NaN` rather than `0`. -/
theorem C1_pageSizeZero_diverges :
    jsRecomputeHead 10 0 = none ∧
    jsCeilDivNum 10 0 = JSNum.posInf ∧
    jsRecomputeHead 0 0 = some (JSNum.nan, []) ∧
    jsCeilDivNum 0 0 ≠ JSNum.int 0 := by decide

/-- C2: for `0 < maxSize < pageCount` and a current page in
`[1, pageCount]`, the rotation strategy returns, in priority order,
`[0, maxSize)` when `page ≤ leftOffset`, `[pageCount - maxSize, pageCount)`
when `pageCount - page < leftOffset`, and otherwise
`[page - leftOffset - 1, page + rightOffset)`, where
`leftOffset = ⌊maxSize / 2⌋` and `rightOffset` is `leftOffset - 1` for even
`maxSize` and `leftOffset` otherwise; with a 20-page collection and
`maxSize = 5`, page 1 pins the window to pages `{1,…,5}` and page 20 pins it
to `{16,…,20}`. -/
theorem C2_rotation_window (st : State)
    (hm : 0 < st.maxSize) (hmp : st.maxSize < st.pageCount)
    (hp1 : 1 ≤ st.page) (hp2 : st.page ≤ st.pageCount) :
    _applyRotation st =
      (if st.page ≤ ⌊(st.maxSize : ℚ) / 2⌋ then ((0 : Int), st.maxSize)
       else if st.pageCount - st.page < ⌊(st.maxSize : ℚ) / 2⌋ then
         (st.pageCount - st.maxSize, st.pageCount)
       else
         (st.page - ⌊(st.maxSize : ℚ) / 2⌋ - 1,
          st.page + (if Even st.maxSize then ⌊(st.maxSize : ℚ) / 2⌋ - 1
                     else ⌊(st.maxSize : ℚ) / 2⌋))) ∧
    jsSlice (fillPages 20) (_applyRotation (rotState 1)).1 (_applyRotation (rotState 1)).2 =
      [1, 2, 3, 4, 5] ∧
    jsSlice (fillPages 20) (_applyRotation (rotState 20)).1 (_applyRotation (rotState 20)).2 =
      [16, 17, 18, 19, 20] := by
  refine ⟨?_, by decide, by decide⟩
  unfold _applyRotation
  have h2 : Int.fdiv st.maxSize 2 = ⌊(st.maxSize : ℚ) / 2⌋ := by
    rw [fdiv_eq_floor st.maxSize 2 (by norm_num)]
    norm_num
  have he : (Int.tmod st.maxSize 2 = 0) = Even st.maxSize :=
    propext (tmod_two_eq_zero_iff_even st.maxSize)
  simp only [h2, he]

/-- C2 witness: the rotation theorem applied at the concrete state with 20
pages, `maxSize = 5`, current page 10. -/
theorem C2_rotation_window_witness :
    (0 < (rotState 10).maxSize ∧ (rotState 10).maxSize < (rotState 10).pageCount ∧
      1 ≤ (rotState 10).page ∧ (rotState 10).page ≤ (rotState 10).pageCount) ∧
    jsSlice (fillPages 20) (_applyRotation (rotState 1)).1 (_applyRotation (rotState 1)).2 =
      [1, 2, 3, 4, 5] :=
  ⟨by decide, (C2_rotation_window (rotState 10) (by decide) (by decide)
      (by decide) (by decide)).2.1⟩

/-- C3: with ellipses enabled, `_applyEllipses` prepends `[1, ellipsis]`
exactly when the window misses page 1 (`start > 0`) and appends
`[ellipsis, pageCount]` exactly when it misses the last page
(`end < pageCount`); with ellipses disabled the window is published
unchanged; concretely, 20 pages with `maxSize = 5`, rotation, page 10 and
ellipses yield the Display Sequence `[1, ellipsis, 8, 9, 10, 11, 12,
ellipsis, 20]`. -/
theorem C3_ellipses_annotation (st : State) (start stop : Int) :
    (_applyEllipses st start stop).pages =
      (if st.ellipses then
        (if 0 < start then [1, -1] else []) ++ st.pages ++
          (if stop < st.pageCount then [-1, st.pageCount] else [])
      else st.pages) ∧
    (ngOnChanges (mkState 20 1 10 5 true true)).pages =
      [1, -1, 8, 9, 10, 11, 12, -1, 20] := by
  refine ⟨?_, by decide⟩
  unfold _applyEllipses
  dsimp only
  split_ifs <;> simp

/-- C6: for `0 < maxSize < pageCount` and a current page in
`[1, pageCount]`, the pagination-blocks strategy returns the window
`[block * maxSize, block * maxSize + maxSize)` with
`block = ⌈page / maxSize⌉ - 1`; with 10 pages, `maxSize = 3`, page 4 the
window is `[3, 6)`, i.e. pages `{4, 5, 6}`. -/
theorem C6_pagination_window (st : State)
    (hm : 0 < st.maxSize) (hmp : st.maxSize < st.pageCount)
    (hp1 : 1 ≤ st.page) (hp2 : st.page ≤ st.pageCount) :
    _applyPagination st =
      ((⌈(st.page : ℚ) / (st.maxSize : ℚ)⌉ - 1) * st.maxSize,
       (⌈(st.page : ℚ) / (st.maxSize : ℚ)⌉ - 1) * st.maxSize + st.maxSize) ∧
    _applyPagination pagState = (3, 6) ∧
    jsSlice (fillPages 10) (_applyPagination pagState).1 (_applyPagination pagState).2 =
      [4, 5, 6] := by
  refine ⟨?_, by decide, by decide⟩
  unfold _applyPagination
  rw [jsCeilDiv_eq_ceil st.page st.maxSize hm]

/-- C6 witness: the pagination-blocks theorem applied at the concrete state
with 10 pages, `maxSize = 3`, current page 4. -/
theorem C6_pagination_window_witness :
    (0 < pagState.maxSize ∧ pagState.maxSize < pagState.pageCount ∧
      1 ≤ pagState.page ∧ pagState.page ≤ pagState.pageCount) ∧
    _applyPagination pagState = (3, 6) :=
  ⟨by decide, (C6_pagination_window pagState (by decide) (by decide)
      (by decide) (by decide)).2.1⟩

/-- C7: for `collectionSize ≥ 0` and `pageSize > 0` the derived page count
is `⌈collectionSize / pageSize⌉`, and it is `0` exactly when
`collectionSize = 0`. -/
theorem C7_pageCount_ceil (st : State)
    (hcs : 0 ≤ st.collectionSize) (hps : 0 < st.pageSize) :
    (ngOnChanges st).pageCount = ⌈(st.collectionSize : ℚ) / (st.pageSize : ℚ)⌉ ∧
    ((ngOnChanges st).pageCount = 0 ↔ st.collectionSize = 0) := by
  have hpc : (ngOnChanges st).pageCount = jsCeilDiv st.collectionSize st.pageSize :=
    (ngOnChanges_fields st).2.2.2.2.2.1
  rw [hpc, jsCeilDiv_eq_ceil st.collectionSize st.pageSize hps]
  refine ⟨rfl, ?_⟩
  have hq : (0 : ℚ) < (st.pageSize : ℚ) := by exact_mod_cast hps
  have hx : 0 ≤ (st.collectionSize : ℚ) / (st.pageSize : ℚ) :=
    div_nonneg (by exact_mod_cast hcs) hq.le
  rw [Int.ceil_eq_zero_iff]
  simp only [Set.mem_Ioc]
  constructor
  · rintro ⟨-, h2⟩
    have h0 : (st.collectionSize : ℚ) / (st.pageSize : ℚ) = 0 := le_antisymm h2 hx
    rcases div_eq_zero_iff.mp h0 with h | h
    · exact_mod_cast h
    · exact absurd h hq.ne'
  · intro h
    have h0 : (st.collectionSize : ℚ) = 0 := by exact_mod_cast h
    rw [h0, zero_div]
    norm_num

/-- C7 witness: 101 items at 10 per page give `⌈101/10⌉ = 11` pages. -/
theorem C7_pageCount_ceil_witness :
    ((0 : Int) ≤ 101 ∧ (0 : Int) < 10) ∧
    ((ngOnChanges (mkState 101 10 1 0 false true)).pageCount = ⌈(101 : ℚ) / 10⌉ ∧
      ((ngOnChanges (mkState 101 10 1 0 false true)).pageCount = 0 ↔ (101 : Int) = 0)) :=
  ⟨by decide, C7_pageCount_ceil (mkState 101 10 1 0 false true) (by decide) (by decide)⟩

/-- C8: the clamp used by the component (`minPage = 1`) always lands in
`[1, max(pageCount, 1)]`; it returns 1 when `pageCount ≤ 0` or the request
is below 1, returns `pageCount` when the request exceeds `pageCount ≥ 1`,
and returns an in-range request unchanged. -/
theorem C8_clamp_range (pageCount requested : Int) (hpc : 0 ≤ pageCount) :
    (1 ≤ getValueInRange requested pageCount 1 ∧
      getValueInRange requested pageCount 1 ≤ max pageCount 1) ∧
    (pageCount ≤ 0 ∨ requested < 1 → getValueInRange requested pageCount 1 = 1) ∧
    (1 ≤ pageCount → pageCount < requested → getValueInRange requested pageCount 1 = pageCount) ∧
    (1 ≤ requested → requested ≤ pageCount → getValueInRange requested pageCount 1 = requested) := by
  unfold getValueInRange
  split_ifs <;> omega

/-- C8 witness: the clamp theorem applied at `pageCount = 5`,
`requested = 99`. -/
theorem C8_clamp_range_witness :
    ((0 : Int) ≤ 5) ∧
    ((1 ≤ getValueInRange 99 5 1 ∧ getValueInRange 99 5 1 ≤ max (5 : Int) 1) ∧
      ((5 : Int) ≤ 0 ∨ (99 : Int) < 1 → getValueInRange 99 5 1 = 1) ∧
      ((1 : Int) ≤ 5 → (5 : Int) < 99 → getValueInRange 99 5 1 = 5) ∧
      ((1 : Int) ≤ 99 → (99 : Int) ≤ 5 → getValueInRange 99 5 1 = 99)) :=
  ⟨by decide, C8_clamp_range 5 99 (by decide)⟩

/-- C5 counterexample: in the initial state of a fresh component
(`page = 0`, its declared default, and `_pageCount = 0`), `selectPage` of
the current page `0` does emit a notification (payload `1`), because the
clamp moves the out-of-range current page; the clamped value `1` also lies
outside `[1, pageCount] = [1, 0]`.  This refutes the claim's "selectPage of
the current page emits nothing" for arbitrary states. -/
theorem C5_selectPage_counterexample :
    initialState.page = 0 ∧
    (selectPage initialState initialState.page).2 = some 1 ∧
    initialState.pageCount < _getPageNoInRange initialState initialState.page := by
  decide

/-- C5 (amended): `selectPage` clamps the target into
`[1, max(pageCount, 1)]`, emits exactly once with the clamped value as
payload if and only if it differs from the prior current page — hence emits
nothing for a target equal to a current page that itself satisfies the
Current Page invariant `page ∈ [1, max(pageCount, 1)]` — and always runs the
full recompute afterward. -/
theorem C5_selectPage_amended (st : State) (target : Int)
    (hpage : 1 ≤ st.page ∧ st.page ≤ max st.pageCount 1) :
    (1 ≤ _getPageNoInRange st target ∧ _getPageNoInRange st target ≤ max st.pageCount 1) ∧
    (selectPage st target).2 =
      (if _getPageNoInRange st target ≠ st.page then some (_getPageNoInRange st target)
       else none) ∧
    (target = st.page → (selectPage st target).2 = none) ∧
    (selectPage st target).1 = ngOnChanges { st with page := _getPageNoInRange st target } := by
  refine ⟨?_, rfl, ?_, rfl⟩
  · unfold _getPageNoInRange getValueInRange
    split_ifs <;> omega
  · intro h
    have hcl : _getPageNoInRange st st.page = st.page := by
      unfold _getPageNoInRange getValueInRange
      split_ifs <;> omega
    subst h
    simp [selectPage, _getPageNoInRange] at hcl ⊢
    simp [hcl]

/-- C5 witness: the amended theorem applied at the 20-page rotated state on
page 10 with target 7 (emits payload 7). -/
theorem C5_selectPage_amended_witness :
    (1 ≤ (rotState 10).page ∧ (rotState 10).page ≤ max (rotState 10).pageCount 1) ∧
    ((1 ≤ _getPageNoInRange (rotState 10) 7 ∧
        _getPageNoInRange (rotState 10) 7 ≤ max (rotState 10).pageCount 1) ∧
      (selectPage (rotState 10) 7).2 =
        (if _getPageNoInRange (rotState 10) 7 ≠ (rotState 10).page then
          some (_getPageNoInRange (rotState 10) 7)
         else none) ∧
      ((7 : Int) = (rotState 10).page → (selectPage (rotState 10) 7).2 = none) ∧
      (selectPage (rotState 10) 7).1 =
        ngOnChanges { rotState 10 with page := _getPageNoInRange (rotState 10) 7 }) :=
  ⟨by decide, C5_selectPage_amended (rotState 10) 7 (by decide)⟩

/-- Recompute `ngOnChanges` is determined by the bound inputs and the clamped page:
the stale derived fields (`_pageCount`, `pages`) and any difference between
pages that clamp identically are irrelevant. -/
theorem ngOnChanges_congr (st st' : State)
    (h1 : st.collectionSize = st'.collectionSize) (h2 : st.pageSize = st'.pageSize)
    (h3 : st.maxSize = st'.maxSize) (h4 : st.rotate = st'.rotate)
    (h5 : st.ellipses = st'.ellipses)
    (h6 : getValueInRange st.page (jsCeilDiv st.collectionSize st.pageSize) 1 =
      getValueInRange st'.page (jsCeilDiv st'.collectionSize st'.pageSize) 1) :
    ngOnChanges st = ngOnChanges st' := by
  cases st with
  | mk cs ps p ms r el pc pgs =>
    cases st' with
    | mk cs' ps' p' ms' r' el' pc' pgs' =>
      dsimp only at h1 h2 h3 h4 h5 h6
      subst h1
      subst h2
      subst h3
      subst h4
      subst h5
      unfold ngOnChanges _getPageNoInRange
      dsimp only
      rw [h6]

/-- C9: recompute is idempotent — a second `ngOnChanges` with unchanged
inputs reproduces the whole state (Display Sequence and current page
included). -/
theorem C9_recompute_idempotent (st : State)
    (hcs : 0 ≤ st.collectionSize) (hps : 0 < st.pageSize) :
    ngOnChanges (ngOnChanges st) = ngOnChanges st := by
  obtain ⟨h1, h2, h3, h4, h5, h6, h7⟩ := ngOnChanges_fields st
  apply ngOnChanges_congr
  · exact h1
  · exact h2
  · exact h3
  · exact h4
  · exact h5
  · rw [h7, h1, h2, getValueInRange_idem]

/-- C9 witness: idempotence at the concrete 20-page configuration with
rotation, ellipses and `maxSize = 5`. -/
theorem C9_recompute_idempotent_witness :
    ((0 : Int) ≤ 20 ∧ (0 : Int) < 1) ∧
    ngOnChanges (ngOnChanges (mkState 20 1 10 5 true true)) =
      ngOnChanges (mkState 20 1 10 5 true true) :=
  ⟨by decide, C9_recompute_idempotent (mkState 20 1 10 5 true true) (by decide) (by decide)⟩

/-- Every element of `fillPages n` is a page index in `[1, n]`. -/
theorem mem_fillPages {p n : Int} (h : p ∈ fillPages n) : 1 ≤ p ∧ p ≤ n := by
  unfold fillPages at h
  obtain ⟨i, hi, rfl⟩ := List.mem_map.mp h
  rw [List.mem_range] at hi
  omega

/-- A slice keeps only elements of the original list. -/
theorem mem_jsSlice {l : List Int} {s e p : Int} (h : p ∈ jsSlice l s e) : p ∈ l := by
  unfold jsSlice at h
  dsimp only at h
  exact List.drop_subset _ _ (List.take_subset _ _ h)

/-- Elements of the annotated sequence: an element of the incoming window,
or one of the inserted markers `1`, `-1`, `pageCount`. -/
theorem mem_applyEllipses {st : State} {s e p : Int}
    (h : p ∈ (_applyEllipses st s e).pages) :
    p ∈ st.pages ∨ p = 1 ∨ p = -1 ∨ p = st.pageCount := by
  unfold _applyEllipses at h
  split_ifs at h <;> simp_all [List.mem_append] <;> tauto

/-- Every entry published by `ngOnChanges` is the ellipsis marker `-1` or a
page index in `[1, ⌈collectionSize / pageSize⌉]`. -/
theorem ngOnChanges_pages_mem (st : State) :
    ∀ p ∈ (ngOnChanges st).pages,
      p = -1 ∨ (1 ≤ p ∧ p ≤ jsCeilDiv st.collectionSize st.pageSize) := by
  intro p hp
  unfold ngOnChanges _getPageNoInRange at hp
  dsimp only at hp
  by_cases hc : st.maxSize > 0 ∧ jsCeilDiv st.collectionSize st.pageSize > st.maxSize
  · rw [if_pos hc] at hp
    rcases mem_applyEllipses hp with hw | h1 | hm1 | hpc
    · dsimp only at hw
      exact Or.inr (mem_fillPages (mem_jsSlice hw))
    · exact Or.inr (by omega)
    · exact Or.inl hm1
    · dsimp only at hpc
      exact Or.inr (by omega)
  · rw [if_neg hc] at hp
    exact Or.inr (mem_fillPages hp)

/-- C10: after a recompute with a valid configuration, every entry of the
Display Sequence is either the ellipsis marker (encoded as `-1`) or a real
page index in `[1, pageCount]`; real pages are `≥ 1`, so `_isEllipsis`
(`entry == -1`) identifies exactly the ellipsis entries. -/
theorem C10_entries_page_or_ellipsis (st : State)
    (hcs : 0 ≤ st.collectionSize) (hps : 0 < st.pageSize) :
    ∀ p ∈ (ngOnChanges st).pages,
      (p = -1 ∨ (1 ≤ p ∧ p ≤ (ngOnChanges st).pageCount)) ∧
      (_isEllipsis p = true ↔ p = -1) := by
  intro p hp
  refine ⟨?_, by simp [_isEllipsis]⟩
  rw [(ngOnChanges_fields st).2.2.2.2.2.1]
  exact ngOnChanges_pages_mem st p hp

/-- C10 witness: the entry theorem applied to page 8 of the Display Sequence
`[1, -1, 8, 9, 10, 11, 12, -1, 20]`. -/
theorem C10_entries_page_or_ellipsis_witness :
    ((0 : Int) ≤ 20 ∧ (0 : Int) < 1 ∧
      (8 : Int) ∈ (ngOnChanges (mkState 20 1 10 5 true true)).pages) ∧
    (((8 : Int) = -1 ∨
        (1 ≤ (8 : Int) ∧ (8 : Int) ≤ (ngOnChanges (mkState 20 1 10 5 true true)).pageCount)) ∧
      (_isEllipsis 8 = true ↔ (8 : Int) = -1)) :=
  ⟨by decide, C10_entries_page_or_ellipsis (mkState 20 1 10 5 true true)
      (by decide) (by decide) 8 (by decide)⟩

/-- A slice with nonnegative indices is no longer than the requested index
range. -/
theorem jsSlice_length_le (l : List Int) (s e : Int) (hs : 0 ≤ s) (he : 0 ≤ e) :
    ((jsSlice l s e).length : Int) ≤ max (e - s) 0 := by
  simp only [jsSlice]
  rw [List.length_take, List.length_drop]
  simp only [sup_eq_max, inf_eq_min, max_def, min_def]
  split_ifs <;> omega

/-- The clamp with `minPage = 1` never returns less than 1. -/
theorem getValueInRange_ge_one (x pc : Int) : 1 ≤ getValueInRange x pc 1 := by
  unfold getValueInRange
  split_ifs <;> omega

/-- The rotation window bounds are nonnegative when windowing engages. -/
theorem applyRotation_bounds (st : State) (hm : 0 < st.maxSize)
    (hpc : st.maxSize < st.pageCount) :
    0 ≤ (_applyRotation st).1 ∧ 0 ≤ (_applyRotation st).2 := by
  unfold _applyRotation
  dsimp only
  have h2 : Int.fdiv st.maxSize 2 = st.maxSize / 2 := Int.fdiv_eq_ediv st.maxSize (by omega)
  have ht : (Int.tmod st.maxSize 2 = 0) = (st.maxSize % 2 = 0) :=
    propext (by rw [tmod_two_eq_zero_iff_even, Int.even_iff])
  simp only [h2, ht]
  split_ifs <;> constructor <;> omega

/-- The pagination-blocks window bounds are nonnegative for a current page
`≥ 1`. -/
theorem applyPagination_bounds (st : State) (hm : 0 < st.maxSize) (hp : 1 ≤ st.page) :
    0 ≤ (_applyPagination st).1 ∧ 0 ≤ (_applyPagination st).2 := by
  unfold _applyPagination jsCeilDiv
  dsimp only
  have h1 : Int.fdiv (-st.page) st.maxSize = (-st.page) / st.maxSize :=
    Int.fdiv_eq_ediv _ (by omega)
  have h2 : (-st.page) / st.maxSize < 0 := Int.ediv_neg' (by omega) hm
  rw [h1]
  have hprod : 0 ≤ (-((-st.page) / st.maxSize) - 1) * st.maxSize :=
    mul_nonneg (by omega) hm.le
  constructor
  · exact hprod
  · linarith

/-- The rotation window spans at most `maxSize` indices. -/
theorem applyRotation_width (st : State) :
    (_applyRotation st).2 - (_applyRotation st).1 ≤ st.maxSize := by
  unfold _applyRotation
  dsimp only
  have h2 : Int.fdiv st.maxSize 2 = st.maxSize / 2 := Int.fdiv_eq_ediv st.maxSize (by omega)
  have ht : (Int.tmod st.maxSize 2 = 0) = (st.maxSize % 2 = 0) :=
    propext (by rw [tmod_two_eq_zero_iff_even, Int.even_iff])
  simp only [h2, ht]
  split_ifs <;> omega

/-- The pagination-blocks window spans exactly `maxSize` indices. -/
theorem applyPagination_width (st : State) :
    (_applyPagination st).2 - (_applyPagination st).1 = st.maxSize := by
  unfold _applyPagination
  dsimp only
  ring

/-- Ellipsis annotation adds at most two non-ellipsis entries (the boundary
page numbers `1` and `pageCount`). -/
theorem countP_applyEllipses_le (st : State) (s e : Int) :
    (((_applyEllipses st s e).pages.countP (fun p => ! _isEllipsis p)) : Int) ≤
      ((st.pages.countP (fun p => ! _isEllipsis p)) : Int) + 2 := by
  unfold _applyEllipses
  split_ifs <;> simp [List.countP_cons, List.countP_append, _isEllipsis] <;> omega

/-- Count bound for the whole windowed branch: a state whose pages are a
slice spanning at most `maxSize` indices keeps, after annotation, at most
`maxSize + 2` non-ellipsis entries. -/
theorem branch_count_le (st2 : State) (s e : Int) (l : List Int)
    (hp : st2.pages = jsSlice l s e) (hs : 0 ≤ s) (he : 0 ≤ e)
    (hwidth : e - s ≤ st2.maxSize) (hm : 0 ≤ st2.maxSize) :
    (((_applyEllipses st2 s e).pages.countP
        (fun p => ! _isEllipsis p)) : Int) ≤ st2.maxSize + 2 := by
  refine le_trans (countP_applyEllipses_le _ _ _) ?_
  rw [hp]
  have h1 : (jsSlice l s e).countP (fun p => ! _isEllipsis p) ≤
      (jsSlice l s e).length := List.countP_le_length _
  have h2 := jsSlice_length_le l s e hs he
  omega

/-- C4: whenever windowing engages (`maxSize > 0` and the derived page count
exceeds `maxSize`), the Display Sequence holds at most `maxSize` non-ellipsis
entries from the window plus at most two boundary page numbers: at most
`maxSize + 2` non-ellipsis entries in total. -/
theorem C4_nonEllipsis_count_bound (st : State)
    (hcs : 0 ≤ st.collectionSize) (hps : 0 < st.pageSize)
    (hm : 0 < st.maxSize)
    (hmp : st.maxSize < jsCeilDiv st.collectionSize st.pageSize) :
    (((ngOnChanges st).pages.countP (fun p => ! _isEllipsis p)) : Int) ≤ st.maxSize + 2 := by
  have hc : st.maxSize > 0 ∧ jsCeilDiv st.collectionSize st.pageSize > st.maxSize := ⟨hm, hmp⟩
  unfold ngOnChanges _getPageNoInRange
  dsimp only
  rw [if_pos hc]
  cases hr : st.rotate with
  | false =>
    rw [if_neg Bool.false_ne_true]
    have hb := applyPagination_bounds
      { st with
          rotate := false
          page := getValueInRange st.page (jsCeilDiv st.collectionSize st.pageSize) 1
          pageCount := jsCeilDiv st.collectionSize st.pageSize
          pages := fillPages (jsCeilDiv st.collectionSize st.pageSize) }
      hm (getValueInRange_ge_one _ _)
    have hw := applyPagination_width
      { st with
          rotate := false
          page := getValueInRange st.page (jsCeilDiv st.collectionSize st.pageSize) 1
          pageCount := jsCeilDiv st.collectionSize st.pageSize
          pages := fillPages (jsCeilDiv st.collectionSize st.pageSize) }
    refine branch_count_le _ _ _ (fillPages (jsCeilDiv st.collectionSize st.pageSize)) ?_ ?_ ?_ ?_ ?_
    · rfl
    · exact hb.1
    · exact hb.2
    · exact le_of_eq hw
    · exact hm.le
  | true =>
    rw [if_pos rfl]
    have hb := applyRotation_bounds
      { st with
          rotate := true
          page := getValueInRange st.page (jsCeilDiv st.collectionSize st.pageSize) 1
          pageCount := jsCeilDiv st.collectionSize st.pageSize
          pages := fillPages (jsCeilDiv st.collectionSize st.pageSize) }
      hm hmp
    have hw := applyRotation_width
      { st with
          rotate := true
          page := getValueInRange st.page (jsCeilDiv st.collectionSize st.pageSize) 1
          pageCount := jsCeilDiv st.collectionSize st.pageSize
          pages := fillPages (jsCeilDiv st.collectionSize st.pageSize) }
    refine branch_count_le _ _ _ (fillPages (jsCeilDiv st.collectionSize st.pageSize)) ?_ ?_ ?_ ?_ ?_
    · rfl
    · exact hb.1
    · exact hb.2
    · exact hw
    · exact hm.le

/-- C4 witness: the bound applied at the 20-page rotated configuration with
`maxSize = 5` (Display Sequence `[1, -1, 8, 9, 10, 11, 12, -1, 20]`:
7 non-ellipsis entries, and `5 + 2 = 7`). -/
theorem C4_nonEllipsis_count_bound_witness :
    ((0 : Int) ≤ 20 ∧ (0 : Int) < 1 ∧ (0 : Int) < 5 ∧ (5 : Int) < jsCeilDiv 20 1) ∧
    (((ngOnChanges (mkState 20 1 10 5 true true)).pages.countP
        (fun p => ! _isEllipsis p)) : Int) ≤ 5 + 2 :=
  ⟨by decide, C4_nonEllipsis_count_bound (mkState 20 1 10 5 true true)
      (by decide) (by decide) (by decide) (by decide)⟩

end NgbPagination
